import Mathlib

/-!
A shallow embedding of the MiniScript core (src/src/var.c and
src/src/compiler.c) together with proofs about the values, the hash map,
the garbage-collector marking pass, the lexer and the single-pass
compiler.

Modelling conventions, used throughout:

* `Var` is the NaN-tagged 64-bit value word.  With VAR_NAN_TAGGING the
  encoding is an injective map from the variants {undefined, null, bool,
  number-bits, object-pointer} into 64-bit words, so bit equality of
  words coincides with structural equality of the modelled variant.
  IEEE-754 doubles are modelled as exact decimal values in canonical
  form (`Dec`); every concrete number appearing in a theorem below is a
  small integer, on which the decimal/double correspondence is exact
  and injective, and no claim performs double arithmetic.
* Heap objects are addressed by natural numbers; a heap is a function
  from addresses to objects.  Object identity (pointer equality) is
  address equality.
* C `uint32_t` arithmetic here never approaches 2^32, so naturals with
  truncated subtraction model it faithfully on every input used.
* `ASSERT` in the source is compiled out in release builds; it is
  modelled as a no-op, except where skipping it would dereference a
  null or uninitialized pointer, which is modelled as an explicit
  failure value (an `Option` result of none / `FindRes.fail`).
* Freshly allocated, never-initialized memory (`ALLOCATE_ARRAY`) has
  arbitrary contents; such contents are passed in explicitly as a
  `garbage` parameter, so theorems can quantify over (or exhibit) what
  the uninitialized slots held.
-/

set_option maxRecDepth 4000

namespace MiniScript

/-- An exact decimal value `mant / 10 ^ exp10`.  All values are kept in
canonical form (exp10 = 0, or mant not divisible by 10), on which
structural equality coincides with equality of the denoted reals, hence
with bit equality of the (exactly representable) doubles used in the
theorems below. -/
structure Dec where
  mant : Nat
  exp10 : Nat
  deriving DecidableEq, Repr, Inhabited

/-- Strip trailing zeros to reach the canonical form. -/
def decNorm (mant exp10 : Nat) : Nat → Dec
  | 0 => ⟨mant, exp10⟩
  | fuel + 1 =>
    if exp10 = 0 then ⟨mant, 0⟩
    else if mant % 10 = 0 then decNorm (mant / 10) (exp10 - 1) fuel
    else ⟨mant, exp10⟩

/-- The canonical exact decimal for an integer. -/
def decOf (n : Nat) : Dec := ⟨n, 0⟩

/-- The tagged value word (var.h is summarized by the spec's data model;
the variants and their comparison semantics are those used by
src/src/var.c).  Doubles are modelled as exact decimals. -/
inductive Var where
  | undef : Var
  | null : Var
  | bool (b : Bool) : Var
  | num (d : Dec) : Var
  | obj (addr : Nat) : Var
  deriving DecidableEq, Repr, Inhabited

/-- One key/value slot of a Map (struct MapEntry). -/
structure MapEntry where
  key : Var
  value : Var
  deriving DecidableEq, Repr, Inhabited

/-- The payload of a Map object: capacity, live count and the entry
array (struct Map, minus the object header). -/
structure MapData where
  capacity : Nat
  count : Nat
  entries : List MapEntry
  deriving DecidableEq, Repr, Inhabited

/-- Heap object payloads, as far as value comparison and the claims
need them.  String carries its cached hash, length-implicit byte data;
Range carries its two endpoints.  The remaining kinds only compare by
identity, so their payloads are irrelevant here and are elided. -/
inductive Obj where
  | str (hash : Nat) (data : List Nat) : Obj
  | list (elems : List Var) : Obj
  | mapO (d : MapData) : Obj
  | range (rfrom rto : Dec) : Obj
  | script : Obj
  | func : Obj
  | fiber : Obj
  | user : Obj
  deriving DecidableEq, Repr, Inhabited

/-- A heap: addresses to objects. -/
def Heap : Type := Nat → Obj

/-- Numeric tag of an object kind (ObjectType), used for the
`o1->type != o2->type` comparison in isValuesEqual. -/
def Obj.typeTag : Obj → Nat
  | .str _ _ => 0
  | .list _ => 1
  | .mapO _ => 2
  | .range _ _ => 3
  | .script => 4
  | .func => 5
  | .fiber => 6
  | .user => 7

/-- isValuesSame (var.c:663): with VAR_NAN_TAGGING the bit
representations are unique, so it is bit (here: structural) equality. -/
def isValuesSame (v1 v2 : Var) : Bool :=
  v1 = v2

/-- isValuesEqual (var.c:672): same bits, or both heap objects of equal
kind, with Range compared field-wise, String compared by hash, length
and bytes, and every other kind falling to the default (identity,
already handled by isValuesSame). -/
def isValuesEqual (heap : Heap) (v1 v2 : Var) : Bool :=
  if isValuesSame v1 v2 then true
  else
    match v1, v2 with
    | .obj a1, .obj a2 =>
      if (heap a1).typeTag ≠ (heap a2).typeTag then false
      else
        match heap a1, heap a2 with
        | .range f1 t1, .range f2 t2 => f1 = f2 && t1 = t2
        | .str h1 d1, .str h2 d2 =>
          h1 = h2 && d1.length = d2.length && d1 = d2
        | _, _ => false
    | _, _ => false

/-! ### The Map (open addressing, linear probing) — var.c:432-583 -/

/-- MAP_LOAD_PERCENT (var.c:45). -/
def MAP_LOAD_PERCENT : Nat := 75

/-- GROW_FACTOR (var.c:50). -/
def GROW_FACTOR : Nat := 2

/-- Modelled from the spec: MIN_CAPACITY is defined in a header that is
not part of the sources here; per §4.1 it is the small minimum buffer
capacity, "e.g. 8". -/
def MIN_CAPACITY : Nat := 8

/-- Result of `_mapFindEntry`: the entry index holding the key, or the
index at which to insert (first tombstone of the probe sequence, else
the empty slot), or failure — the path where the table wrapped around
with no empty slot and no tombstone, on which the code asserts and then
writes through a null result pointer. -/
inductive FindRes where
  | found (i : Nat) : FindRes
  | notFound (i : Nat) : FindRes
  | fail : FindRes
  deriving DecidableEq, Repr

/-- The probe loop of `_mapFindEntry` (var.c:447-476).  `steps` is the
number of probes left before the index wraps back to the start index
(the do/while runs exactly `capacity` probes in the worst case). -/
def mapFindLoop (heap : Heap) (m : MapData) (key : Var) :
    Nat → Nat → Option Nat → FindRes
  | _, 0, tomb =>
    -- Wrapped around: the map is filled with tombstones (or, on
    -- garbage contents, with non-matching live-looking keys).  The
    -- code asserts tombstone != NULL; a null tombstone is a failure.
    match tomb with
    | some t => .notFound t
    | none => .fail
  | index, steps + 1, tomb =>
    let e := m.entries.getD index default
    if e.key = .undef then
      if e.value = .bool true then
        -- A tombstone: remember the first one, keep probing.
        mapFindLoop heap m key ((index + 1) % m.capacity) steps
          (if tomb = none then some index else tomb)
      else
        -- An empty slot: not found; insert at the first tombstone if
        -- one was seen, else right here.
        .notFound (match tomb with | some t => t | none => index)
    else if isValuesEqual heap e.key key then
      .found index
    else
      mapFindLoop heap m key ((index + 1) % m.capacity) steps tomb

/-- _mapFindEntry (var.c:432).  On capacity 0 the C function returns
false with the result slot untouched; no caller dereferences the result
in that case, and we return `notFound 0`. -/
def mapFindEntry (heap : Heap) (hsh : Var → Nat) (m : MapData) (key : Var) :
    FindRes :=
  if m.capacity = 0 then .notFound 0
  else
    mapFindLoop heap m key (hsh key % m.capacity) m.capacity none

/-- _mapInsertEntry (var.c:487).  Returns the updated entries plus
`true` iff a new key was added; `none` models the null-dereferencing
failure path of the find. -/
def mapInsertEntry (heap : Heap) (hsh : Var → Nat) (m : MapData)
    (key value : Var) : Option (MapData × Bool) :=
  match mapFindEntry heap hsh m key with
  | .found i =>
    some ({ m with entries := m.entries.set i ⟨(m.entries.getD i default).key, value⟩ }, false)
  | .notFound i =>
    some ({ m with entries := m.entries.set i ⟨key, value⟩ }, true)
  | .fail => none

/-- The initial contents of the resized entry array (var.c:509-514).
`garbage` is what the fresh allocation happened to contain.  The init
loop body reads `self->entries->key` — slot 0, not slot i — so only the
first slot is cleared and every other slot keeps its garbage. -/
def mapResizeInitEntries (garbage : Nat → MapEntry) (capacity : Nat) :
    List MapEntry :=
  let fresh := (List.range capacity).map garbage
  if capacity = 0 then fresh
  else fresh.set 0 ⟨.undef, .bool false⟩

/-- _mapResize (var.c:504): allocate `capacity` entries (uninitialized
except slot 0 as above), then re-insert every non-undefined old entry
in slot order.  `none` when a re-insertion hits the failing find. -/
def mapResize (heap : Heap) (hsh : Var → Nat) (m : MapData)
    (garbage : Nat → MapEntry) (capacity : Nat) : Option MapData :=
  let init : MapData :=
    { capacity := capacity, count := m.count
      entries := mapResizeInitEntries garbage capacity }
  (m.entries.filter (fun e => decide (e.key ≠ .undef))).foldl
    (fun acc e =>
      acc.bind fun md => (mapInsertEntry heap hsh md e.key e.value).map Prod.fst)
    (some init)

/-- mapGet (var.c:527): the stored value, or the undefined sentinel. -/
def mapGet (heap : Heap) (hsh : Var → Nat) (m : MapData) (key : Var) : Var :=
  match mapFindEntry heap hsh m key with
  | .found i => (m.entries.getD i default).value
  | _ => Var.undef

/-- mapSet (var.c:533): resize first when the next insertion would
cross the load-factor cap, then insert, bumping count for new keys. -/
def mapSet (heap : Heap) (hsh : Var → Nat) (garbage : Nat → MapEntry)
    (m : MapData) (key value : Var) : Option MapData := do
  let m ←
    if m.count + 1 > m.capacity * MAP_LOAD_PERCENT / 100 then
      let cap := m.capacity * GROW_FACTOR
      let cap := if cap < MIN_CAPACITY then MIN_CAPACITY else cap
      mapResize heap hsh m garbage cap
    else
      some m
  let (m, isNew) ← mapInsertEntry heap hsh m key value
  some (if isNew then { m with count := m.count + 1 } else m)

/-- mapClear (var.c:547). -/
def mapClear : MapData := ⟨0, 0, []⟩

/-- mapRemoveKey (var.c:554): absent keys return null untouched;
a present key's slot becomes a tombstone and the count drops, then the
table is cleared when empty or shrunk when the (integer-division) shrink
condition `capacity/GROW_FACTOR > count/MAP_LOAD_PERCENT*100` holds. -/
def mapRemoveKey (heap : Heap) (hsh : Var → Nat) (garbage : Nat → MapEntry)
    (m : MapData) (key : Var) : Option (MapData × Var) :=
  match mapFindEntry heap hsh m key with
  | .found i =>
    let value := (m.entries.getD i default).value
    let m : MapData :=
      { m with entries := m.entries.set i ⟨.undef, .bool true⟩
               count := m.count - 1 }
    if m.count = 0 then
      some (mapClear, value)
    else if m.capacity > MIN_CAPACITY ∧
        m.capacity / GROW_FACTOR > m.count / MAP_LOAD_PERCENT * 100 then
      let cap := m.capacity / GROW_FACTOR
      let cap := if cap < MIN_CAPACITY then MIN_CAPACITY else cap
      (mapResize heap hsh m garbage cap).map fun md => (md, value)
    else
      some (m, value)
  | _ => some (m, .null)

/-- The spec's Map invariant 6: an undefined key marks an empty slot
(value false) or a tombstone (value true). -/
def mapEntriesOk (m : MapData) : Bool :=
  m.entries.all fun e =>
    if e.key = .undef then e.value = .bool false || e.value = .bool true
    else true

/-! ### Collector marking of a Map — blackenObject, var.c:121-130 -/

/-- The values run through the collector's marking by the OBJ_MAP case
of blackenObject.  The loop is `for (i = 0; i < map->count; i++)`, over
the first `count` slots of the entry array (not over `capacity` slots),
skipping undefined keys and passing each surviving slot's key and value
to grayObject. -/
def blackenMapGrays (m : MapData) : List Var :=
  (List.range m.count).foldr
    (fun i acc =>
      let e := m.entries.getD i default
      if e.key = .undef then acc else e.key :: e.value :: acc)
    []

/-- The indexes of the live entries of a map: every slot of the entry
array whose key is not the undefined sentinel. -/
def liveEntryIdxs (m : MapData) : List Nat :=
  (List.range m.entries.length).filter
    (fun i => decide ((m.entries.getD i default).key ≠ .undef))

/-! ### Script and Function construction — var.c:281-341, compiler.c -/

/-- Modelled from the spec (§4.1): nameTableAdd lives in
types/name_table.h, which is not among the sources; per the spec it
returns the index of an identical interned string when present and
otherwise appends the string and returns the new index. -/
def nameTableAdd (tbl : List (List Char)) (name : List Char) :
    List (List Char) × Nat :=
  match tbl.findIdx? (fun s => s = name) with
  | some i => (tbl, i)
  | none => (tbl ++ [name], tbl.length)

/-- The per-function code record, struct Fn. -/
structure FnRec where
  opcodes : List Nat
  oplines : List Nat
  stack_size : Nat
  deriving DecidableEq, Repr, Inhabited

/-- A Function object (struct Function).  Function objects are held in
a side array (`funcs` of `ScriptState`) and referred to by index, which
models pointer identity.  A native function's `fn` stays at its empty
initial value (the C union holds a native pointer instead). -/
structure FuncObj where
  name : List Char
  is_native : Bool
  arity : Int
  fn : FnRec
  deriving DecidableEq, Repr, Inhabited

/-- The Script-owned state the claims are about: the function heap
(`funcs`, index 0 being the script body), the Script's `functions`
buffer (function-heap indexes, modelling the `Function*` elements),
the `function_names` name table and the `literals` constant pool. -/
structure ScriptState where
  funcs : List FuncObj
  functions : List Nat
  function_names : List (List Char)
  literals : List Var
  deriving DecidableEq, Repr, Inhabited

/-- newFunction (var.c:303) with a non-null owner: append the Function
to the owner's `functions` buffer, intern its name into
`function_names` (the Function's name is the interned string), set
arity to the -2 the source writes, and initialize an empty Fn.  Returns
the state and the new function's heap index.  (The owner == NULL branch
of the source is unreachable from this compiler and is not modelled.) -/
def newFunction (s : ScriptState) (name : List Char) (is_native : Bool) :
    ScriptState × Nat :=
  let idx := s.funcs.length
  let (names, _) := nameTableAdd s.function_names name
  ({ s with
      funcs := s.funcs ++ [⟨name, is_native, -2, ⟨[], [], 0⟩⟩]
      functions := s.functions ++ [idx]
      function_names := names }, idx)

/-- The name of the script body function (var.c:296). -/
def scriptLevelName : List Char := "@(ScriptLevel)".toList

/-- newScript (var.c:281): fresh buffers and a body Function created
through newFunction with the script as owner. -/
def newScript : ScriptState :=
  (newFunction ⟨[], [], [], []⟩ scriptLevelName false).1

/-! ### The lexer — compiler.c:28-619 -/

/-- TokenType (compiler.c:28). -/
inductive Tk where
  | TK_ERROR | TK_EOF | TK_LINE
  | TK_DOT | TK_DOTDOT | TK_COMMA | TK_COLLON | TK_SEMICOLLON | TK_HASH
  | TK_LPARAN | TK_RPARAN | TK_LBRACKET | TK_RBRACKET | TK_LBRACE | TK_RBRACE
  | TK_PERCENT
  | TK_TILD | TK_AMP | TK_PIPE | TK_CARET
  | TK_PLUS | TK_MINUS | TK_STAR | TK_FSLASH | TK_BSLASH
  | TK_EQ | TK_GT | TK_LT
  | TK_EQEQ | TK_NOTEQ | TK_GTEQ | TK_LTEQ
  | TK_PLUSEQ | TK_MINUSEQ | TK_STAREQ | TK_DIVEQ
  | TK_SRIGHT | TK_SLEFT
  | TK_IMPORT | TK_ENUM | TK_DEF | TK_NATIVE | TK_END
  | TK_NULL | TK_SELF | TK_IS | TK_IN | TK_AND | TK_OR | TK_NOT
  | TK_TRUE | TK_FALSE
  | TK_BOOL_T | TK_NUM_T | TK_STRING_T | TK_ARRAY_T | TK_MAP_T
  | TK_RANGE_T | TK_FUNC_T | TK_OBJ_T
  | TK_DO | TK_WHILE | TK_FOR | TK_IF | TK_ELIF | TK_ELSE
  | TK_BREAK | TK_CONTINUE | TK_RETURN
  | TK_NAME | TK_NUMBER | TK_STRING
  deriving DecidableEq, Repr, Inhabited

/-- A lexed token (struct Token): kind, start offset into the source,
length, 1-based line, and the literal value for NUMBER/STRING. -/
structure Token where
  type : Tk
  start : Nat
  length : Nat
  line : Nat
  value : Var
  deriving DecidableEq, Repr

instance : Inhabited Token := ⟨⟨.TK_ERROR, 0, 0, 1, .undef⟩⟩

/-- The lexing/parsing state (struct Parser).  Error messages are
recorded by their format strings; the `%`-argument substitution of the
C error sink is elided.  `heap` holds the String objects the lexer
allocates for string literals. -/
structure PState where
  source : List Char
  pos : Nat
  tokenStart : Nat
  line : Nat
  previous : Token
  current : Token
  next : Token
  has_errors : Bool
  errors : List String
  heap : List Obj
  deriving Repr

/-- The NUL sentinel terminating every source. -/
def nulChar : Char := Char.ofNat 0

/-- utilIsDigit (utils.h, standard): a decimal digit. -/
def utilIsDigit (c : Char) : Bool := '0' ≤ c && c ≤ '9'

/-- utilIsName (utils.h; §4.2, identifiers are ASCII letters and
underscore): a name-start character. -/
def utilIsName (c : Char) : Bool :=
  ('a' ≤ c && c ≤ 'z') || ('A' ≤ c && c ≤ 'Z') || c = '_'

/-- peekChar (compiler.c:398): the char under the cursor, with NUL past
the end of the source. -/
def peekChar (st : PState) : Char := st.source.getD st.pos nulChar

/-- eatChar (compiler.c:409): pop one char, counting lines. -/
def eatChar (st : PState) : Char × PState :=
  let c := peekChar st
  (c, { st with pos := st.pos + 1
                line := if c = '\n' then st.line + 1 else st.line })

/-- reportError via lexError (compiler.c:320): the has_errors flag is
set and the message recorded.  (The C reportError body is a TODO whose
debug-only ASSERT is compiled out; the flag set is its effect.) -/
def lexErrorP (st : PState) (msg : String) : PState :=
  { st with has_errors := true, errors := st.errors ++ [msg] }

/-- parseError (compiler.c:329): suppressed when the offending token is
a TK_ERROR (the lexer already reported it). -/
def parseErrorP (st : PState) (msg : String) : PState :=
  if st.previous.type = .TK_ERROR then st
  else { st with has_errors := true, errors := st.errors ++ [msg] }

/-- setNextToken (compiler.c:499).  The value field of `next` is left
as-is, exactly as in the C struct assignment-by-field. -/
def setNextToken (st : PState) (ty : Tk) : PState :=
  { st with next :=
      { type := ty
        start := st.tokenStart
        length := st.pos - st.tokenStart
        line := st.line - (if ty = .TK_LINE then 1 else 0)
        value := st.next.value } }

/-- setNextValueToken (compiler.c:507). -/
def setNextValueToken (st : PState) (ty : Tk) (v : Var) : PState :=
  let st := setNextToken st ty
  { st with next := { st.next with value := v } }

/-- matchChar (compiler.c:481). -/
def matchChar (st : PState) (c : Char) : Bool × PState :=
  if peekChar st = c then (true, (eatChar st).2) else (false, st)

/-- setNextTwoCharToken (compiler.c:489). -/
def setNextTwoCharToken (st : PState) (c : Char) (one two : Tk) : PState :=
  let (m, st) := matchChar st c
  if m then setNextToken st two else setNextToken st one

/-- Modelled from the spec (§3/§8): utilHashString of utils.h is
FNV-1a over the bytes, 32-bit. -/
def fnv1a (data : List Nat) : Nat :=
  data.foldl (fun h b => ((h ^^^ b) * 16777619) % 4294967296) 2166136261

/-- newString for the lexer's heap: allocate a String object carrying
its FNV-1a hash and bytes; the value is a reference to it. -/
def newStringP (st : PState) (data : List Nat) : PState × Var :=
  ({ st with heap := st.heap ++ [.str (fnv1a data) data] },
   .obj st.heap.length)

/-- The scan loop of eatString (compiler.c:354-386): consume until the
closing quote, translating the five escapes, reporting any other escape
and a NUL (end of input) as lex errors. -/
def eatStringLoop (st : PState) (buff : List Nat) :
    Nat → PState × List Nat
  | 0 => (st, buff)
  | fuel + 1 =>
    let (c, st) := eatChar st
    if c = '"' then (st, buff)
    else if c = nulChar then
      let st := lexErrorP st "Non terminated string."
      ({ st with pos := st.pos - 1 }, buff)
    else if c = '\\' then
      let (c2, st) := eatChar st
      if c2 = '"' then eatStringLoop st (buff ++ [34]) fuel
      else if c2 = '\\' then eatStringLoop st (buff ++ [92]) fuel
      else if c2 = 'n' then eatStringLoop st (buff ++ [10]) fuel
      else if c2 = 'r' then eatStringLoop st (buff ++ [13]) fuel
      else if c2 = 't' then eatStringLoop st (buff ++ [9]) fuel
      else
        eatStringLoop (lexErrorP st "Error: invalid escape character")
          buff fuel
    else eatStringLoop st (buff ++ [c.toNat]) fuel

/-- eatString (compiler.c:354): scan the literal, build the String and
set the next token to TK_STRING carrying it. -/
def eatString (st : PState) : PState :=
  let (st, buff) := eatStringLoop st [] (st.source.length + 2)
  let (st, v) := newStringP st buff
  setNextValueToken st .TK_STRING v

/-- The keyword table (compiler.c:156), identifier text to token kind.
The C table's explicit length fields all equal the string lengths. -/
def keywords : List (List Char × Tk) :=
  [ ("import".toList, .TK_IMPORT), ("enum".toList, .TK_ENUM),
    ("def".toList, .TK_DEF), ("native".toList, .TK_NATIVE),
    ("end".toList, .TK_END), ("null".toList, .TK_NULL),
    ("self".toList, .TK_SELF), ("is".toList, .TK_IS),
    ("in".toList, .TK_IN), ("and".toList, .TK_AND),
    ("or".toList, .TK_OR), ("not".toList, .TK_NOT),
    ("true".toList, .TK_TRUE), ("false".toList, .TK_FALSE),
    ("do".toList, .TK_DO), ("while".toList, .TK_WHILE),
    ("for".toList, .TK_FOR), ("if".toList, .TK_IF),
    ("elif".toList, .TK_ELIF), ("else".toList, .TK_ELSE),
    ("break".toList, .TK_BREAK), ("continue".toList, .TK_CONTINUE),
    ("return".toList, .TK_RETURN), ("Bool".toList, .TK_BOOL_T),
    ("Num".toList, .TK_NUM_T), ("String".toList, .TK_STRING_T),
    ("Array".toList, .TK_ARRAY_T), ("Map".toList, .TK_MAP_T),
    ("Range".toList, .TK_RANGE_T), ("Object".toList, .TK_OBJ_T),
    ("Function".toList, .TK_FUNC_T) ]

/-- The text of the token currently being scanned. -/
def tokenText (st : PState) : List Char :=
  (st.source.drop st.tokenStart).take (st.pos - st.tokenStart)

/-- The identifier-consumption loop of eatName (compiler.c:419). -/
def eatNameLoop (st : PState) : Nat → PState
  | 0 => st
  | fuel + 1 =>
    if utilIsName (peekChar st) || utilIsDigit (peekChar st) then
      eatNameLoop (eatChar st).2 fuel
    else st

/-- eatName (compiler.c:417): finish the identifier, then reclassify it
through the keyword table (exact length and bytewise match). -/
def eatName (st : PState) : PState :=
  let st := eatNameLoop st (st.source.length + 2)
  let text := tokenText st
  let ty :=
    match keywords.find? (fun kw => kw.1 = text) with
    | some kw => kw.2
    | none => Tk.TK_NAME
  setNextToken st ty

/-- The digit-consumption loop of eatNumber. -/
def eatDigitsLoop (st : PState) : Nat → PState
  | 0 => st
  | fuel + 1 =>
    if utilIsDigit (peekChar st) then eatDigitsLoop (eatChar st).2 fuel
    else st

/-- The numeric value of a digit string. -/
def digitsVal (ds : List Char) : Nat :=
  ds.foldl (fun a c => 10 * a + (c.toNat - 48)) 0

/-- The value strtod computes for the scanned literal
`digits [ '.' digits ]`, modelled as the exact decimal in canonical
form (every literal used below is a small integer on which the double
is exact). -/
def parseDecimal (text : List Char) : Dec :=
  let ip := text.takeWhile (fun c => c ≠ '.')
  let fp := text.drop (ip.length + 1)
  decNorm (digitsVal ip * 10 ^ fp.length + digitsVal fp) fp.length
    (fp.length + 1)

/-- eatNumber (compiler.c:442): digits, an optional fraction, and the
strtod conversion.  The ERANGE overflow report cannot trigger on the
exact-rational model and is elided. -/
def eatNumber (st : PState) : PState :=
  let st := eatDigitsLoop st (st.source.length + 2)
  let (m, st) := matchChar st '.'
  let st := if m then eatDigitsLoop st (st.source.length + 2) else st
  setNextValueToken st .TK_NUMBER (.num (parseDecimal (tokenText st)))

/-- The whitespace-run consumption inside lexToken's ' '/'\t'/'\r'
case (compiler.c:543-552). -/
def skipWsLoop (st : PState) : Nat → PState
  | 0 => st
  | fuel + 1 =>
    let c := peekChar st
    if c = ' ' || c = '\t' || c = '\r' then skipWsLoop (eatChar st).2 fuel
    else st

/-- The scanning loop of lexToken (compiler.c:519-615): dispatch on the
first character of the next token. -/
def lexLoop : Nat → PState → PState
  | 0, st => st
  | fuel + 1, st =>
    if peekChar st = nulChar then
      let st := setNextToken st .TK_EOF
      { st with next := { st.next with start := st.pos } }
    else
      let st := { st with tokenStart := st.pos }
      let (c, st) := eatChar st
      if c = ',' then setNextToken st .TK_COMMA
      else if c = ':' then setNextToken st .TK_COLLON
      else if c = ';' then setNextToken st .TK_SEMICOLLON
      else if c = '#' then setNextToken st .TK_HASH
      else if c = '(' then setNextToken st .TK_LPARAN
      else if c = ')' then setNextToken st .TK_RPARAN
      else if c = '[' then setNextToken st .TK_LBRACKET
      else if c = ']' then setNextToken st .TK_RBRACKET
      else if c = '{' then setNextToken st .TK_LBRACE
      else if c = '}' then setNextToken st .TK_RBRACE
      else if c = '%' then setNextToken st .TK_PERCENT
      else if c = '~' then setNextToken st .TK_TILD
      else if c = '&' then setNextToken st .TK_AMP
      else if c = '|' then setNextToken st .TK_PIPE
      else if c = '^' then setNextToken st .TK_CARET
      else if c = '\n' then setNextToken st .TK_LINE
      else if c = ' ' || c = '\t' || c = '\r' then
        lexLoop fuel (skipWsLoop st (st.source.length + 2))
      else if c = '.' then setNextTwoCharToken st '.' .TK_DOT .TK_DOTDOT
      else if c = '=' then setNextTwoCharToken st '=' .TK_EQ .TK_EQEQ
      else if c = '!' then setNextTwoCharToken st '=' .TK_NOT .TK_NOTEQ
      else if c = '>' then
        let (m, st) := matchChar st '>'
        if m then setNextToken st .TK_SRIGHT
        else setNextTwoCharToken st '=' .TK_GT .TK_GTEQ
      else if c = '<' then
        let (m, st) := matchChar st '<'
        if m then setNextToken st .TK_SLEFT
        else setNextTwoCharToken st '=' .TK_LT .TK_LTEQ
      else if c = '+' then setNextTwoCharToken st '=' .TK_PLUS .TK_PLUSEQ
      else if c = '-' then setNextTwoCharToken st '=' .TK_MINUS .TK_MINUSEQ
      else if c = '*' then setNextTwoCharToken st '=' .TK_STAR .TK_STAREQ
      else if c = '/' then setNextTwoCharToken st '=' .TK_FSLASH .TK_DIVEQ
      else if c = '"' then eatString st
      else if utilIsDigit c then eatNumber st
      else if utilIsName c then eatName st
      else
        let st :=
          if 32 ≤ c.toNat && c.toNat ≤ 126 then
            lexErrorP st "Invalid character %c"
          else lexErrorP st "Invalid byte 0x%x"
        setNextToken st .TK_ERROR

/-- lexToken (compiler.c:513): shift the three-token window and scan
the new `next`, unless the stream already ended. -/
def lexToken (st : PState) : PState :=
  let st := { st with previous := st.current, current := st.next }
  if st.current.type = .TK_EOF then st
  else lexLoop (st.source.length + 2) st

/-- parserInit (compiler.c:626). -/
def parserInit (source : List Char) : PState :=
  { source := source
    pos := 0
    tokenStart := 0
    line := 1
    previous := default
    current := default
    next := ⟨.TK_ERROR, 0, 0, 1, .undef⟩
    has_errors := false
    errors := []
    heap := [] }

/-- matchLine (compiler.c:666): consume a run of TK_LINE tokens. -/
def matchLineLoop (st : PState) : Nat → PState
  | 0 => st
  | fuel + 1 =>
    if st.current.type = .TK_LINE then matchLineLoop (lexToken st) fuel
    else st

/-- matchLine: whether lines were consumed, plus the state. -/
def matchLineP (st : PState) : Bool × PState :=
  if st.current.type = .TK_LINE then
    (true, matchLineLoop st (st.source.length + 2))
  else (false, st)

/-- skipNewLines (compiler.c:475). -/
def skipNewLinesP (st : PState) : PState := (matchLineP st).2

/-- match (compiler.c:656): skip lines, then consume the expected
token if it is current. -/
def matchP (st : PState) (expected : Tk) : Bool × PState :=
  let st := (matchLineP st).2
  if st.current.type = expected then (true, lexToken st)
  else (false, st)

/-- consume (compiler.c:706): skip lines, take one token, report a
parse error on mismatch, resynchronising when the following token is
the expected one. -/
def consumeP (st : PState) (expected : Tk) (errMsg : String) : PState :=
  let st := (matchLineP st).2
  let st := lexToken st
  if st.previous.type = expected then st
  else
    let st := parseErrorP st errMsg
    if st.current.type = expected then lexToken st else st

/-- consumeEndStatement (compiler.c:674): a same-line semicolon and/or
newlines; EOF also ends a statement. -/
def consumeEndStatement (st : PState) : PState :=
  let (c1, st) :=
    if st.current.type = .TK_SEMICOLLON then
      let (_, st) := matchP st .TK_SEMICOLLON
      (true, st)
    else (false, st)
  let (c2, st) := matchLineP st
  if !c1 && !c2 && st.current.type ≠ .TK_EOF then
    parseErrorP st "Expected statement end with newline or ';'."
  else st

/-- consumeStartBlock (compiler.c:689): an optional same-line `do`
and/or newlines. -/
def consumeStartBlock (st : PState) : PState :=
  let (c1, st) :=
    if st.current.type = .TK_DO then
      let (_, st) := matchP st .TK_DO
      (true, st)
    else (false, st)
  let (c2, st) := matchLineP st
  if !c1 && !c2 then
    parseErrorP st "Expected enter block with newline or 'do'."
  else st

/-! ### Opcodes and the emitter — compiler.c:1060-1100 -/

/-- Modelled from the spec (§4.4): opcodes.h is not among the sources;
the opcode set is the spec's authoritative list, numbered in its listed
order.  No claim depends on the numeric values, only on the byte layout
of instructions and operands. -/
inductive Opcode where
  | OP_CONSTANT | OP_PUSH_NULL | OP_POP | OP_JUMP | OP_JUMP_IF_NOT
  | OP_RETURN
  | OP_ADD | OP_SUBTRACT | OP_MULTIPLY | OP_DIVIDE | OP_MOD | OP_RANGE
  | OP_BIT_AND | OP_BIT_OR | OP_BIT_XOR | OP_BIT_LSHIFT | OP_BIT_RSHIFT
  | OP_GT | OP_LT | OP_EQEQ | OP_NOTEQ | OP_GTEQ | OP_LTEQ
  | OP_IS | OP_IN | OP_AND | OP_OR
  | OP_NEGATIVE | OP_NOT | OP_BIT_NOT
  deriving DecidableEq, Repr, Inhabited

/-- The byte value of an opcode (its ordinal in the modelled list). -/
def Opcode.toByte : Opcode → Nat
  | .OP_CONSTANT => 0 | .OP_PUSH_NULL => 1 | .OP_POP => 2 | .OP_JUMP => 3
  | .OP_JUMP_IF_NOT => 4 | .OP_RETURN => 5
  | .OP_ADD => 6 | .OP_SUBTRACT => 7 | .OP_MULTIPLY => 8 | .OP_DIVIDE => 9
  | .OP_MOD => 10 | .OP_RANGE => 11
  | .OP_BIT_AND => 12 | .OP_BIT_OR => 13 | .OP_BIT_XOR => 14
  | .OP_BIT_LSHIFT => 15 | .OP_BIT_RSHIFT => 16
  | .OP_GT => 17 | .OP_LT => 18 | .OP_EQEQ => 19 | .OP_NOTEQ => 20
  | .OP_GTEQ => 21 | .OP_LTEQ => 22 | .OP_IS => 23 | .OP_IN => 24
  | .OP_AND => 25 | .OP_OR => 26
  | .OP_NEGATIVE => 27 | .OP_NOT => 28 | .OP_BIT_NOT => 29

/-- Modelled from the spec (§4.4): the per-opcode operand-stack deltas
of opcodes.h (expressions push one value, POP/RETURN consume, binary
operators consume one net).  Only Fn.stack_size accounting uses it. -/
def Opcode.stackEffect : Opcode → Int
  | .OP_CONSTANT => 1 | .OP_PUSH_NULL => 1 | .OP_POP => -1
  | .OP_JUMP => 0 | .OP_JUMP_IF_NOT => -1 | .OP_RETURN => -1
  | .OP_NEGATIVE => 0 | .OP_NOT => 0 | .OP_BIT_NOT => 0
  | _ => -1

/-- MAX_VARIABLES (compiler.c:16). -/
def MAX_VARIABLES : Nat := 256
/-- MAX_CONSTANTS (compiler.c:20). -/
def MAX_CONSTANTS : Nat := 65536
/-- MAX_JUMP (compiler.c:23). -/
def MAX_JUMP : Nat := 65536
/-- MAX_BREAK_PATCH (compiler.c:26). -/
def MAX_BREAK_PATCH : Nat := 256

/-- A compile-time local (struct Variable). -/
structure Variable where
  name : List Char
  depth : Int
  line : Nat
  deriving DecidableEq, Repr, Inhabited

/-- One stack-allocated Loop record (struct Loop).  The compiler's
`loop` pointer chain is the list, innermost first. -/
structure LoopFrame where
  start : Nat
  patches : List Nat
  deriving DecidableEq, Repr, Inhabited

/-- The compiler state (struct Compiler).  `cur_fn` is the
`compiler->function` pointer as a function-heap index (none = NULL).
`loops` is the `compiler->loop` chain.  `trace` is ghost state: the
opcodes passed to emitOpcode in order.  `crashed` is ghost: set when a
path that dereferences a null/garbage pointer or calls a null parselet
was taken.  `todo` is ghost: an `ASSERT(false, "TODO")` stub (a no-op
in release builds) was reached. -/
structure CState where
  pst : PState
  scope_depth : Int
  localVars : List Variable
  stack_size : Int
  script : ScriptState
  loops : List LoopFrame
  cur_fn : Option Nat
  trace : List Opcode
  todo : Bool
  crashed : Bool
  fuelOut : Bool
  deriving Repr

/-- Lift a parser-state transformer over the compiler state. -/
def withP (c : CState) (f : PState → PState) : CState :=
  { c with pst := f c.pst }

/-- The current function's code record. -/
def curFn (c : CState) : FnRec :=
  (c.script.funcs.getD (c.cur_fn.getD 0) default).fn

/-- Replace the current function's code record. -/
def setCurFn (c : CState) (fn : FnRec) : CState :=
  match c.cur_fn with
  | none => { c with crashed := true }
  | some i =>
    let fo := c.script.funcs.getD i default
    { c with script :=
        { c.script with funcs := c.script.funcs.set i { fo with fn := fn } } }

/-- emitByte (compiler.c:1060): append one byte (the int argument is
truncated to uint8_t) and its line, returning the byte's index. -/
def emitByteC (c : CState) (byte : Nat) : CState × Nat :=
  let fn := curFn c
  let fn :=
    { fn with opcodes := fn.opcodes ++ [byte % 256]
              oplines := fn.oplines ++ [c.pst.previous.line] }
  (setCurFn c fn, fn.opcodes.length - 1)

/-- emitShort (compiler.c:1070): two bytes, big-endian, returning the
first byte's index. -/
def emitShortC (c : CState) (arg : Nat) : CState × Nat :=
  let (c, _) := emitByteC c ((arg >>> 8) % 256)
  let (c, i) := emitByteC c (arg % 256)
  (c, i - 1)

/-- emitOpcode (compiler.c:1077): the opcode byte plus stack-size
tracking (and the ghost trace). -/
def emitOpcode (c : CState) (op : Opcode) : CState :=
  let (c, _) := emitByteC c op.toByte
  let c := { c with trace := c.trace ++ [op] }
  let c := { c with stack_size := c.stack_size + op.stackEffect }
  let fn := curFn c
  if c.stack_size > (fn.stack_size : Int) then
    setCurFn c { fn with stack_size := c.stack_size.toNat }
  else c

/-- patchJump (compiler.c:1094): write the current bytecode count,
big-endian, into the two bytes at the patch index. -/
def patchJumpC (c : CState) (addr_index : Nat) : CState :=
  let fn := curFn c
  let jump_to := fn.opcodes.length
  let data := fn.opcodes.set addr_index ((jump_to >>> 8) % 256)
  let data := data.set (addr_index + 1) (jump_to % 256)
  setCurFn c { fn with opcodes := data }

/-- The outcome of compilerAddConstant on the literal buffer alone. -/
structure AddConstRes where
  literals : List Var
  index : Nat
  overflow : Bool
  deriving DecidableEq, Repr

/-- The search loop of compilerAddConstant (compiler.c:1022): the
index of the first pooled value v with isValuesSame(v, value). -/
def findSameIdx (literals : List Var) (value : Var) : Option Nat :=
  match literals with
  | [] => none
  | w :: ws =>
    if isValuesSame w value then some 0
    else (findSameIdx ws value).map (· + 1)

/-- compilerAddConstant (compiler.c:1019), on the Script's literal
buffer: return the index of the first pooled value that isValuesSame
finds; otherwise append below MAX_CONSTANTS (else report overflow) and
return `count - 1`. -/
def compilerAddConstantCore (literals : List Var) (value : Var) :
    AddConstRes :=
  match findSameIdx literals value with
  | some i => ⟨literals, i, false⟩
  | none =>
    if literals.length < MAX_CONSTANTS then
      ⟨literals ++ [value], literals.length + 1 - 1, false⟩
    else
      ⟨literals, literals.length - 1, true⟩

/-- compilerAddConstant lifted to the compiler state (the overflow case
raises the parse error of compiler.c:1032). -/
def addConstantC (c : CState) (value : Var) : CState × Nat :=
  let r := compilerAddConstantCore c.script.literals value
  let c := { c with script := { c.script with literals := r.literals } }
  let c :=
    if r.overflow then
      withP c (parseErrorP ·
        "A script should contain at most %d unique constants.")
    else c
  (c, r.index)

/-- compilerEnterBlock (compiler.c:1039). -/
def compilerEnterBlock (c : CState) : CState :=
  { c with scope_depth := c.scope_depth + 1 }

/-- The popping loop of compilerExitBlock (compiler.c:1047).  The C
loop indexes variables[var_count-1] without an emptiness guard (an
out-of-bounds read when no variable exists); the model stops on the
empty list, which is the only difference and is never reached with a
variable present. -/
def exitBlockLoop (vars : List Variable) (ss : Int) (d : Int) :
    Nat → List Variable × Int
  | 0 => (vars, ss)
  | fuel + 1 =>
    match vars.getLast? with
    | some v =>
      if v.depth ≥ d then exitBlockLoop vars.dropLast (ss - 1) d fuel
      else (vars, ss)
    | none => (vars, ss)

/-- compilerExitBlock (compiler.c:1044). -/
def compilerExitBlock (c : CState) : CState :=
  let (vars, ss) :=
    exitBlockLoop c.localVars c.stack_size c.scope_depth
      (c.localVars.length + 1)
  { c with localVars := vars, stack_size := ss
           scope_depth := c.scope_depth - 1 }

/-- compilerSearchVariables (compiler.c:977) with SCOPE_ANY: the first
index whose name matches. -/
def compilerSearchVariables (c : CState) (name : List Char) : Int :=
  match c.localVars.findIdx? (fun v => v.name = name) with
  | some i => (i : Int)
  | none => -1

/-! ### The grammar table — compiler.c:756-829 -/

/-- The prefix parselets of the rules table.  exprName, exprArray,
exprMap and exprAttrib are `ASSERT(false, "TODO")` stubs in the
source. -/
inductive PrefixFn where
  | literal | name | grouping | array | mapLit | unary | attrib
  deriving DecidableEq, Repr

/-- The infix parselets of the rules table.  exprAssignment, exprCall
and exprSubscript are `ASSERT(false, "TODO")` stubs in the source. -/
inductive InfixFn where
  | binaryOp | assignment | call | subscript
  deriving DecidableEq, Repr

/-- One row of the rules table. -/
structure GrammarRule where
  pre : Option PrefixFn
  inf : Option InfixFn
  prec : Nat
  deriving Repr

/-- The precedence ladder (compiler.c:216), by ordinal:
NONE 0, LOWEST 1, ASSIGNMENT 2, LOGICAL_OR 3, LOGICAL_AND 4,
LOGICAL_NOT 5, EQUALITY 6, IN 7, IS 8, COMPARISION 9, BITWISE_OR 10,
BITWISE_XOR 11, BITWISE_AND 12, BITWISE_SHIFT 13, RANGE 14, TERM 15,
FACTOR 16, UNARY 17, CALL 18, SUBSCRIPT 19, ATTRIB 20, PRIMARY 21. -/
def rules : Tk → GrammarRule
  | .TK_DOT => ⟨some .attrib, none, 20⟩
  | .TK_DOTDOT => ⟨none, some .binaryOp, 14⟩
  | .TK_LPARAN => ⟨some .grouping, some .call, 18⟩
  | .TK_LBRACKET => ⟨some .array, some .subscript, 19⟩
  | .TK_LBRACE => ⟨some .mapLit, none, 0⟩
  | .TK_PERCENT => ⟨none, some .binaryOp, 16⟩
  | .TK_TILD => ⟨some .unary, none, 0⟩
  | .TK_AMP => ⟨none, some .binaryOp, 12⟩
  | .TK_PIPE => ⟨none, some .binaryOp, 10⟩
  | .TK_CARET => ⟨none, some .binaryOp, 11⟩
  | .TK_PLUS => ⟨none, some .binaryOp, 15⟩
  | .TK_MINUS => ⟨some .unary, some .binaryOp, 15⟩
  | .TK_STAR => ⟨none, some .binaryOp, 16⟩
  | .TK_FSLASH => ⟨none, some .binaryOp, 16⟩
  | .TK_EQ => ⟨none, some .assignment, 2⟩
  | .TK_GT => ⟨none, some .binaryOp, 9⟩
  | .TK_LT => ⟨none, some .binaryOp, 9⟩
  | .TK_EQEQ => ⟨none, some .binaryOp, 6⟩
  | .TK_NOTEQ => ⟨none, some .binaryOp, 6⟩
  | .TK_GTEQ => ⟨none, some .binaryOp, 9⟩
  | .TK_LTEQ => ⟨none, some .binaryOp, 9⟩
  | .TK_PLUSEQ => ⟨none, some .assignment, 2⟩
  | .TK_MINUSEQ => ⟨none, some .assignment, 2⟩
  | .TK_STAREQ => ⟨none, some .assignment, 2⟩
  | .TK_DIVEQ => ⟨none, some .assignment, 2⟩
  | .TK_SRIGHT => ⟨none, some .binaryOp, 13⟩
  | .TK_SLEFT => ⟨none, some .binaryOp, 13⟩
  | .TK_IS => ⟨none, some .binaryOp, 8⟩
  | .TK_IN => ⟨none, some .binaryOp, 7⟩
  | .TK_AND => ⟨none, some .binaryOp, 4⟩
  | .TK_OR => ⟨none, some .binaryOp, 3⟩
  | .TK_NOT => ⟨some .unary, none, 5⟩
  | .TK_TRUE => ⟨some .literal, none, 0⟩
  | .TK_FALSE => ⟨some .literal, none, 0⟩
  | .TK_BOOL_T => ⟨some .literal, none, 0⟩
  | .TK_NUM_T => ⟨some .literal, none, 0⟩
  | .TK_STRING_T => ⟨some .literal, none, 0⟩
  | .TK_ARRAY_T => ⟨some .literal, none, 0⟩
  | .TK_MAP_T => ⟨some .literal, none, 0⟩
  | .TK_RANGE_T => ⟨some .literal, none, 0⟩
  | .TK_FUNC_T => ⟨some .literal, none, 0⟩
  | .TK_OBJ_T => ⟨some .literal, none, 0⟩
  | .TK_NAME => ⟨some .name, none, 0⟩
  | .TK_NUMBER => ⟨some .literal, none, 0⟩
  | .TK_STRING => ⟨some .literal, none, 0⟩
  | _ => ⟨none, none, 0⟩

/-- The opcode emitted by exprBinaryOp (compiler.c:851). -/
def binaryOpFor : Tk → Opcode
  | .TK_DOTDOT => .OP_RANGE
  | .TK_PERCENT => .OP_MOD
  | .TK_AMP => .OP_BIT_AND
  | .TK_PIPE => .OP_BIT_OR
  | .TK_CARET => .OP_BIT_XOR
  | .TK_PLUS => .OP_ADD
  | .TK_MINUS => .OP_SUBTRACT
  | .TK_STAR => .OP_MULTIPLY
  | .TK_FSLASH => .OP_DIVIDE
  | .TK_GT => .OP_GT
  | .TK_LT => .OP_LT
  | .TK_EQEQ => .OP_EQEQ
  | .TK_NOTEQ => .OP_NOTEQ
  | .TK_GTEQ => .OP_GTEQ
  | .TK_LTEQ => .OP_LTEQ
  | .TK_SRIGHT => .OP_BIT_RSHIFT
  | .TK_SLEFT => .OP_BIT_LSHIFT
  | .TK_IS => .OP_IS
  | .TK_IN => .OP_IN
  | .TK_AND => .OP_AND
  | .TK_OR => .OP_OR
  | _ => .OP_ADD

/-- The opcode emitted by exprUnaryOp (compiler.c:883). -/
def unaryOpFor : Tk → Opcode
  | .TK_TILD => .OP_BIT_NOT
  | .TK_MINUS => .OP_NEGATIVE
  | .TK_NOT => .OP_NOT
  | _ => .OP_NOT

/-- exprLiteral (compiler.c:837): pool the token's value and emit
CONSTANT with its index. -/
def exprLiteral (c : CState) : CState :=
  let (c, index) := addConstantC c c.pst.previous.value
  let c := emitOpcode c .OP_CONSTANT
  (emitShortC c index).1

/-- match lifted to the compiler state. -/
def matchC (c : CState) (t : Tk) : Bool × CState :=
  let (b, p) := matchP c.pst t
  (b, { c with pst := p })

/-- The parameter-list loop of compileFunction (compiler.c:1141-1148):
consume names (checking for duplicates in the current scope — no name
is ever added, so the check never fires) separated by commas. -/
def paramLoop (c : CState) : Nat → CState
  | 0 => c
  | fuel + 1 =>
    let (b, c) := matchC c .TK_NAME
    if b then
      let name := (c.pst.source.drop c.pst.previous.start).take
        c.pst.previous.length
      let c :=
        if compilerSearchVariables c name ≠ -1 then
          withP c (parseErrorP · "Multiple definition of a parameter")
        else c
      let (_, c) := matchC c .TK_COMMA
      paramLoop c fuel
    else c

/-- The modes of the single-step compile driver below, one per
(mutually recursive) parsing routine of compiler.c:
topLoop = the declaration loop of compileSource (compiler.c:1320),
stmt = compileStatement, blockBody/blockLoop = compileBlockBody,
ifStmt = compileIfStatement, whileStmt = compileWhileStatement,
funcDef = compileFunction, parsePrec/infixLoop = parsePrecedence. -/
inductive CMode where
  | topLoop
  | stmt
  | blockBody (if_body : Bool)
  | blockLoop (if_body : Bool)
  | ifStmt
  | whileStmt
  | funcDef (is_native : Bool)
  | parsePrec (prec : Nat)
  | infixLoop (prec : Nat)

/-- The compile driver: the mutually recursive parsing and
code-generation routines of compiler.c, with an explicit fuel (every
theorem below supplies enough fuel; `fuelOut` records exhaustion, and
no theorem's run exhausts it). -/
def run : Nat → CMode → CState → CState
  | 0, _, c => { c with fuelOut := true }
  | fuel + 1, mode, c =>
    match mode with
    | .parsePrec p =>
      -- parsePrecedence (compiler.c:904)
      let c := withP c lexToken
      match (rules c.pst.previous.type).pre with
      | none => withP c (parseErrorP · "Expected an expression.")
      | some pf =>
        let c :=
          match pf with
          | .literal => exprLiteral c
          | .grouping =>
            -- exprGrouping (compiler.c:892)
            let c := run fuel (.parsePrec 1) c
            withP c (consumeP · .TK_RPARAN "Expected ')' after expression ")
          | .unary =>
            -- exprUnaryOp (compiler.c:878)
            let op := c.pst.previous.type
            let c := withP c skipNewLinesP
            let c := run fuel (.parsePrec 18) c
            emitOpcode c (unaryOpFor op)
          | _ =>
            -- exprName/exprArray/exprMap/exprAttrib: TODO stubs that
            -- are no-ops in release builds.
            { c with todo := true }
        run fuel (.infixLoop p) c
    | .infixLoop p =>
      -- the infix loop of parsePrecedence (compiler.c:916)
      if (rules c.pst.current.type).prec ≥ p then
        let c := withP c lexToken
        let op := c.pst.previous.type
        match (rules op).inf with
        | some .binaryOp =>
          -- exprBinaryOp (compiler.c:846)
          let c := withP c skipNewLinesP
          let c := run fuel (.parsePrec ((rules op).prec + 1)) c
          let c := emitOpcode c (binaryOpFor op)
          run fuel (.infixLoop p) c
        | some _ =>
          -- exprAssignment/exprCall/exprSubscript: TODO stubs.
          run fuel (.infixLoop p) { c with todo := true }
        | none =>
          -- A token with a precedence but no infix parselet: the C
          -- code calls a null function pointer.
          { c with crashed := true }
      else c
    | .stmt =>
      -- compileStatement (compiler.c:1241)
      let (b, c) := matchC c .TK_BREAK
      if b then
        match c.loops with
        | [] =>
          withP c (parseErrorP · "Cannot use 'break' outside a loop.")
        | lf :: rest =>
          let c := emitOpcode c .OP_JUMP
          let (c, patch) := emitByteC c 0xffff
          { c with loops := { lf with patches := lf.patches ++ [patch] } :: rest }
      else
        let (b, c) := matchC c .TK_CONTINUE
        if b then
          match c.loops with
          | [] =>
            withP c (parseErrorP · "Cannot use 'continue' outside a loop.")
          | lf :: _ =>
            let c := emitOpcode c .OP_JUMP
            (emitShortC c lf.start).1
        else
          let (b, c) := matchC c .TK_RETURN
          if b then
            if c.scope_depth = -1 then
              withP c (parseErrorP · "Invalid 'return' outside a function.")
            else if c.pst.current.type = .TK_SEMICOLLON ||
                c.pst.current.type = .TK_LINE then
              emitOpcode (emitOpcode c .OP_PUSH_NULL) .OP_RETURN
            else
              emitOpcode (run fuel (.parsePrec 1) c) .OP_RETURN
          else
            let (b, c) := matchC c .TK_IF
            if b then run fuel .ifStmt c
            else
              let (b, c) := matchC c .TK_WHILE
              if b then run fuel .whileStmt c
              else
                let (b, c) := matchC c .TK_FOR
                if b then
                  -- compileForStatement: a TODO stub.
                  { c with todo := true }
                else
                  let c := run fuel (.parsePrec 1) c
                  emitOpcode c .OP_POP
    | .blockBody if_body =>
      -- compileBlockBody (compiler.c:1166)
      let c := compilerEnterBlock c
      let c := run fuel (.blockLoop if_body) c
      compilerExitBlock c
    | .blockLoop if_body =>
      let next := c.pst.current.type
      if next = .TK_END || next = .TK_EOF ||
          (if_body && (next = .TK_ELSE || next = .TK_ELIF)) then c
      else run fuel (.blockLoop if_body) (run fuel .stmt c)
    | .ifStmt =>
      -- compileIfStatement (compiler.c:1186)
      let c := run fuel (.parsePrec 1) c
      let c := emitOpcode c .OP_JUMP_IF_NOT
      let (c, ifpatch) := emitByteC c 0xffff
      let c := withP c consumeStartBlock
      let c := run fuel (.blockBody true) c
      let (b, c) := matchC c .TK_ELIF
      if b then
        run fuel (.blockBody true) (patchJumpC c ifpatch)
      else
        let (b, c) := matchC c .TK_ELSE
        if b then
          run fuel (.blockBody false) (patchJumpC c ifpatch)
        else
          patchJumpC c ifpatch
    | .whileStmt =>
      -- compileWhileStatement (compiler.c:1209)
      let lf : LoopFrame := ⟨(curFn c).opcodes.length, []⟩
      let c := { c with loops := lf :: c.loops }
      let c := run fuel (.parsePrec 1) c
      let c := emitOpcode c .OP_JUMP_IF_NOT
      let (c, whilepatch) := emitByteC c 0xffff
      let c := run fuel (.blockBody false) c
      let c := emitOpcode c .OP_JUMP
      let c := (emitShortC c (match c.loops with
        | lf' :: _ => lf'.start
        | [] => 0)).1
      let c := patchJumpC c whilepatch
      let patches := match c.loops with
        | lf' :: _ => lf'.patches
        | [] => []
      let c := patches.foldl (fun c p => patchJumpC c p) c
      { c with loops := c.loops.tail }
    | .funcDef is_native =>
      -- compileFunction (compiler.c:1109)
      let c := withP c (consumeP · .TK_NAME "Expected a function name.")
      let name := (c.pst.source.drop c.pst.previous.start).take
        c.pst.previous.length
      -- compilerSearchName is a stub returning NAME_NOT_DEFINED, so
      -- the multiple-definition branch never fires.
      let (names, index) := nameTableAdd c.script.function_names name
      let c := { c with script := { c.script with function_names := names } }
      -- newFunction appends the Function to script->functions and
      -- interns its name (already present, so no second table entry).
      let fname := names.getD index default
      let (s, fidx) := newFunction c.script fname is_native
      let c := { c with script := s }
      -- compileFunction then writes the same Function into
      -- script->functions once more (compiler.c:1131).
      let c := { c with script :=
        { c.script with functions := c.script.functions ++ [fidx] } }
      let c := { c with cur_fn := some fidx }
      let c := withP c (consumeP · .TK_LPARAN "Expected '(' after function name.")
      let c := { c with scope_depth := c.scope_depth + 1 }
      let c := paramLoop c (c.pst.source.length + 2)
      let c := withP c (consumeP · .TK_RPARAN "Expected ')' after parameters end.")
      let c := withP c consumeEndStatement
      if is_native then
        { c with scope_depth := c.scope_depth - 1, cur_fn := none }
      else
        let c := run fuel (.blockBody false) c
        { c with scope_depth := c.scope_depth - 1, cur_fn := some 0 }
    | .topLoop =>
      -- the declaration loop of compileSource (compiler.c:1320)
      let (b, c) := matchC c .TK_EOF
      if b then c
      else
        let (b, c) := matchC c .TK_NATIVE
        if b then run fuel .topLoop (run fuel (.funcDef true) c)
        else
          let (b, c) := matchC c .TK_DEF
          if b then run fuel .topLoop (run fuel (.funcDef false) c)
          else
            let (b, c) := matchC c .TK_IMPORT
            if b then
              -- the import TODO stub
              run fuel .topLoop { c with todo := true }
            else run fuel .topLoop (run fuel .stmt c)

/-- The UTF-8 byte-order mark skipped by compileSource
(compiler.c:1303). -/
def bomChars : List Char := [Char.ofNat 0xEF, Char.ofNat 0xBB, Char.ofNat 0xBF]

/-- compilerInit (compiler.c:964).  The function writes
`Loop* loop = NULL; Function* fn = NULL;` into dead locals instead of
initializing compiler->loop, so the loop chain starts out as whatever
the stack happened to contain: the caller passes it in as `loop0`. -/
def compilerInit (source : List Char) (loop0 : List LoopFrame) : CState :=
  { pst := parserInit source
    scope_depth := -1
    localVars := []
    stack_size := 0
    script := default
    loops := loop0
    cur_fn := none
    trace := []
    todo := false
    crashed := false
    fuelOut := false }

/-- compileSource (compiler.c:1294), with the loader elided (the host
supplies the source text): skip a BOM, init the compiler and a fresh
Script whose body receives the code, prime the token window, and run
the declaration loop. -/
def compileSource (loop0 : List LoopFrame) (source : List Char) : CState :=
  let source :=
    if source.take 3 = bomChars then source.drop 3 else source
  let c := compilerInit source loop0
  let c := { c with script := newScript, cur_fn := some 0 }
  let c := withP c lexToken
  let c := withP c lexToken
  let c := withP c skipNewLinesP
  run ((source.length + 8) * 8) .topLoop c

/-- The bytecode of the script body after compiling `source`. -/
def bodyCode (loop0 : List LoopFrame) (source : String) : List Nat :=
  ((compileSource loop0 source.toList).script.funcs.getD 0 default).fn.opcodes

/-! ## Concrete states used by the theorems -/

/-- A hash function for the demonstration traces, hashing a number key
to its integer value (utilHashBits of utils.h is not among the sources;
the map code is parametric in the hash, and the demonstrations below
hold for this concrete choice). -/
def hashDemo : Var → Nat
  | .num d => d.mant
  | _ => 0

/-- A heap with no strings or ranges: the demonstration keys are
numbers, so no trace below dereferences it. -/
def heapU : Heap := fun _ => Obj.user

/-- Benign uninitialized-memory contents: all-zero bits, which read
back as empty slots. -/
def gBenign : Nat → MapEntry := fun _ => ⟨.undef, .bool false⟩

/-- Adversarial uninitialized-memory contents for C1: slots that read
back as undefined keys with a non-boolean value. -/
def gNum5 : Nat → MapEntry := fun _ => ⟨.undef, .num (decOf 5)⟩

/-- Adversarial uninitialized-memory contents for C10: slots that read
back as live-looking entries for the key `0`. -/
def gBad : Nat → MapEntry := fun _ => ⟨.num (decOf 0), .num (decOf 999)⟩

/-- The empty map of newMap (var.c:264). -/
def emptyMapD : MapData := ⟨0, 0, []⟩

/-- The C1 trace: one mapSet into an empty map, whose load-factor
resize allocates an entry array whose uninitialized slots held
`gNum5` contents. -/
def c1map : Option MapData :=
  mapSet heapU hashDemo gNum5 emptyMapD (.num (decOf 10)) (.num (decOf 7))

/-- The C3 trace: insert the colliding keys 0 and 8, then remove 0,
leaving the single live entry in slot 1 behind a tombstone in slot 0. -/
def c3map : Option MapData :=
  ((mapSet heapU hashDemo gBenign emptyMapD (.num (decOf 0)) (.obj 5)).bind fun m =>
    mapSet heapU hashDemo gBenign m (.num (decOf 8)) (.obj 6)).bind fun m =>
      (mapRemoveKey heapU hashDemo gBenign m (.num (decOf 0))).map Prod.fst

/-- The C10 pre-state: seven distinct number keys, which grows the
table to capacity 16 (count 7), all with benign garbage. -/
def c10map : Option MapData :=
  (List.range 7).foldl
    (fun acc i => acc.bind fun m =>
      mapSet heapU hashDemo gBenign m (.num (decOf i)) (.num (decOf (100 + i))))
    (some emptyMapD)

/-- The C4/S6 program. -/
def whileBreakSrc : String := "while 1 do\n  break\nend"

/-- The C5 program: an if with one elif arm, the elif adjoining the
body (the only shape on which compileIfStatement's elif branch is
reached, since compileBlockBody only stops on a current elif token). -/
def ifElifSrc : String := "if 0 do 2 elif 3\n4\nend"

/-- The C2 program: one function declaration. -/
def defSrc : String := "def f()\nend"

/-- The C8 program. -/
def breakSrc : String := "break\n"

/-- A string literal exercising all five escapes in order:
the source characters `"` `\"` `\\` `\n` `\r` `\t` `"`. -/
def allEscSrc : List Char :=
  ['"', '\\', '"', '\\', '\\', '\\', 'n', '\\', 'r', '\\', 't', '"']

/-- Big-endian decoding of the two operand bytes at `i`. -/
def operandAt (code : List Nat) (i : Nat) : Nat :=
  code.getD i 0 * 256 + code.getD (i + 1) 0

/-! ## Claim C1 -/

/-- Claim C1 (code bug): one mapSet on an empty map triggers the
load-factor resize, whose init loop writes `self->entries->key` — slot
0 only, not slot i (var.c:512) — so the slots the fresh allocation held
as (undefined, number 5) stay that way: entry 1 of the resulting map
has an undefined key with a non-boolean value, violating the claimed
invariant (and the `ASSERT(IS_BOOL(entry->value))` of _mapFindEntry). -/
theorem c1_mapSet_resize_leaves_uninit_entries :
    c1map.map (fun m => m.entries.getD 1 default) =
      some ⟨.undef, .num (decOf 5)⟩ ∧
    c1map.map mapEntriesOk = some false ∧
    c1map.map (fun m => (m.capacity, m.count)) = some (8, 1) := by
  decide

/-! ## Claim C2 -/

/-- Claim C2 (code bug): compiling `def f()\nend` leaves the Script's
`functions` buffer as [body, f, f] — newFunction appends the new
Function to owner->functions (var.c:319) and compileFunction appends
the same Function again (compiler.c:1131), so it appears twice, not
exactly once, and the second occurrence has no name at its index in
`function_names` (which holds just the two names). -/
theorem c2_compileFunction_appends_twice :
    (compileSource [] defSrc.toList).script.functions = [0, 1, 1] ∧
    (compileSource [] defSrc.toList).script.functions.count 1 = 2 ∧
    (compileSource [] defSrc.toList).script.function_names =
      [scriptLevelName, ['f']] ∧
    ((compileSource [] defSrc.toList).script.funcs.getD 1 default).name =
      ['f'] ∧
    ((compileSource [] defSrc.toList).fuelOut,
     (compileSource [] defSrc.toList).todo,
     (compileSource [] defSrc.toList).crashed) =
      (false, false, false) := by
  decide

/-! ## Claim C3 -/

/-- Claim C3 (code bug): blackenObject's OBJ_MAP case loops
`for (i = 0; i < map->count; i++)` (var.c:123) over the first `count`
slots instead of all `capacity` slots.  On the reachable map whose only
live entry sits in slot 1 behind a tombstone (count 1), the marking
pass grays nothing, missing the live entry's key and value. -/
theorem c3_blacken_misses_live_entry :
    c3map.map blackenMapGrays = some [] ∧
    c3map.map liveEntryIdxs = some [1] ∧
    c3map.map (fun m => m.entries.getD 1 default) =
      some ⟨.num (decOf 8), .obj 6⟩ ∧
    c3map.map (fun m => (m.capacity, m.count)) = some (8, 1) := by
  decide

/-! ## Claim C4 -/

/-- Claim C4, counterexample: on `while 1 do\n  break\nend` the two
patched operands (of the JUMP_IF_NOT and of the break's JUMP) decode to
12, which is the bytecode count — the address one past the loop — and
therefore does NOT lie in [0, bytecode.count) as the claim states. -/
theorem c4_patched_operand_not_below_count :
    operandAt (bodyCode [] whileBreakSrc) 4 =
      (bodyCode [] whileBreakSrc).length ∧
    ¬ (operandAt (bodyCode [] whileBreakSrc) 4 <
        (bodyCode [] whileBreakSrc).length) := by
  decide

/-- Claim C4, amended: the program compiles to exactly the claimed
shape — condition (CONSTANT 0), JUMP_IF_NOT to the address one past the
loop, JUMP (the break) to that same address, JUMP back to the loop
start — with each patched operand stored big-endian and lying in
[0, bytecode.count] (the jump past the loop is patched to
bytecode.count itself, one past the final byte).  Two remarks a
hand-trace of compiler.c confirms: compileWhileStatement consumes
neither `do` nor `end`, so both are parsed as failed expression
statements ("Expected an expression.", twice) whose stray POP bytes are
the ones the two-byte patches then overwrite (each placeholder written
by emitByte(0xffff) is a single byte), which is exactly why the final
bytes coincide with the claimed layout. -/
theorem c4_while_break_layout :
    bodyCode [] whileBreakSrc =
      [Opcode.toByte .OP_CONSTANT, 0, 0,
       Opcode.toByte .OP_JUMP_IF_NOT, 0, 12,
       Opcode.toByte .OP_JUMP, 0, 12,
       Opcode.toByte .OP_JUMP, 0, 0] ∧
    (bodyCode [] whileBreakSrc).length = 12 ∧
    operandAt (bodyCode [] whileBreakSrc) 4 = 12 ∧
    operandAt (bodyCode [] whileBreakSrc) 7 = 12 ∧
    operandAt (bodyCode [] whileBreakSrc) 10 = 0 ∧
    operandAt (bodyCode [] whileBreakSrc) 4 ≤
      (bodyCode [] whileBreakSrc).length ∧
    operandAt (bodyCode [] whileBreakSrc) 7 ≤
      (bodyCode [] whileBreakSrc).length ∧
    operandAt (bodyCode [] whileBreakSrc) 10 <
      (bodyCode [] whileBreakSrc).length ∧
    ((compileSource [] whileBreakSrc.toList).fuelOut,
     (compileSource [] whileBreakSrc.toList).todo,
     (compileSource [] whileBreakSrc.toList).crashed) =
      (false, false, false) ∧
    (compileSource [] whileBreakSrc.toList).pst.errors =
      ["Expected an expression.", "Expected an expression."] := by
  decide

/-! ## Claim C5 -/

/-- Claim C5, counterexample: the claim has the compiler compile an
elif arm's condition "like the initial one" — i.e. condition then a
JUMP_IF_NOT per arm, two in total here — but compiling an if with one
elif arm emits exactly one JUMP_IF_NOT: compileIfStatement
(compiler.c:1196) matches TK_ELIF and then calls compileBlockBody
directly, never compiling the elif condition as a condition. -/
theorem c5_single_jump_if_not_for_elif :
    (compileSource [] ifElifSrc.toList).trace.count .OP_JUMP_IF_NOT = 1 ∧
    ¬ ((compileSource [] ifElifSrc.toList).trace.count .OP_JUMP_IF_NOT
        = 2) := by
  decide

/-- Claim C5, amended: the compiler compiles the condition, emits
JUMP_IF_NOT with a placeholder, compiles the body, and patches the
placeholder to the current PC before compiling at most one elif/else
arm, whose statements are compiled as a plain block: here the
placeholder bytes (4,5) are patched big-endian to 9, the PC at which
the arm's code then begins, and the elif "condition" 3 is compiled as
an expression statement (CONSTANT;POP), with no second JUMP_IF_NOT.
(The one-byte placeholder of emitByte(0xffff) means the patch also
overwrites byte 5, the CONSTANT opcode of the if-body's statement; and
since compileIfStatement never consumes `end`, that token is parsed as
a failed expression statement, giving the recorded error and the
trailing POP.) -/
theorem c5_patch_before_single_arm :
    bodyCode [] ifElifSrc =
      [Opcode.toByte .OP_CONSTANT, 0, 0,
       Opcode.toByte .OP_JUMP_IF_NOT, 0, 9, 0, 1,
       Opcode.toByte .OP_POP,
       Opcode.toByte .OP_CONSTANT, 0, 2,
       Opcode.toByte .OP_POP,
       Opcode.toByte .OP_CONSTANT, 0, 3,
       Opcode.toByte .OP_POP,
       Opcode.toByte .OP_POP] ∧
    (compileSource [] ifElifSrc.toList).trace =
      [.OP_CONSTANT, .OP_JUMP_IF_NOT, .OP_CONSTANT, .OP_POP,
       .OP_CONSTANT, .OP_POP, .OP_CONSTANT, .OP_POP, .OP_POP] ∧
    operandAt (bodyCode [] ifElifSrc) 4 = 9 ∧
    ((compileSource [] ifElifSrc.toList).fuelOut,
     (compileSource [] ifElifSrc.toList).todo,
     (compileSource [] ifElifSrc.toList).crashed) =
      (false, false, false) ∧
    (compileSource [] ifElifSrc.toList).pst.errors =
      ["Expected an expression."] := by
  decide

/-! ## Claim C8 -/

/-- Claim C8 (code bug): compilerInit (compiler.c:972) initializes a
dead local `Loop* loop = NULL` instead of compiler->loop, so the
break-outside-loop check reads uninitialized memory.  When the garbage
happens to be NULL the claimed behaviour occurs: `break\n` reports
"Cannot use 'break' outside a loop.", sets has_errors and emits
nothing.  When the garbage is a non-null chain, the same program emits
JUMP with its placeholder byte, records the patch into the garbage
memory and reports no error at all. -/
theorem c8_break_depends_on_uninit_loop :
    (bodyCode [] breakSrc = [] ∧
     (compileSource [] breakSrc.toList).trace = [] ∧
     (compileSource [] breakSrc.toList).pst.has_errors = true ∧
     (compileSource [] breakSrc.toList).pst.errors =
       ["Cannot use 'break' outside a loop."]) ∧
    (bodyCode [⟨0, []⟩] breakSrc = [Opcode.toByte .OP_JUMP, 255] ∧
     (compileSource [⟨0, []⟩] breakSrc.toList).trace = [.OP_JUMP] ∧
     (compileSource [⟨0, []⟩] breakSrc.toList).pst.has_errors = false ∧
     (compileSource [⟨0, []⟩] breakSrc.toList).pst.errors = []) ∧
    ((compileSource [] breakSrc.toList).fuelOut,
     (compileSource [⟨0, []⟩] breakSrc.toList).fuelOut) =
      (false, false) := by
  decide

/-! ## Claim C10 -/

/-- Claim C10 (code bug): after seven insertions (capacity 16) the map
holds every key; removing the present key 6 returns through the shrink
path `capacity/GROW_FACTOR > count/MAP_LOAD_PERCENT*100`
(var.c:572-573), whose _mapResize re-inserts the survivors into an
array that is uninitialized beyond slot 0.  With the allocation reading
back as live-looking `(key 0, 999)` entries, the re-insertion probe for
key 1 finds neither its key nor an empty slot, wraps around, and hits
the `ASSERT(tombstone != NULL)` / null `*result` write of
_mapFindEntry (var.c:480-481): the removal has no defined result at
all, rather than returning the stored value and leaving every other
mapping intact. -/
theorem c10_remove_shrink_crashes_on_uninit :
    c10map.map (fun m => (m.capacity, m.count)) = some (16, 7) ∧
    c10map.map (fun m => mapGet heapU hashDemo m (.num (decOf 1))) =
      some (.num (decOf 101)) ∧
    c10map.map (fun m => mapGet heapU hashDemo m (.num (decOf 6))) =
      some (.num (decOf 106)) ∧
    c10map.bind
      (fun m => mapRemoveKey heapU hashDemo gBad m (.num (decOf 6))) =
      none := by
  decide

/-! ## Claim C6 -/

/-- Adding the same value n times in a row (the pool state threaded
through repeated compilerAddConstant calls). -/
def addNTimes (lits : List Var) (v : Var) : Nat → List Var
  | 0 => lits
  | n + 1 => (compilerAddConstantCore (addNTimes lits v n) v).literals

theorem findSameIdx_eq_none_of_all (lits : List Var) (v : Var)
    (h : ∀ w ∈ lits, isValuesSame w v = false) :
    findSameIdx lits v = none := by
  induction lits with
  | nil => rfl
  | cons w ws ih =>
    have hw := h w (List.mem_cons_self w ws)
    simp only [findSameIdx, hw, Bool.false_eq_true, if_false]
    rw [ih (fun u hu => h u (List.mem_cons_of_mem w hu))]
    rfl

theorem findSameIdx_append_self (lits : List Var) (v : Var)
    (h : findSameIdx lits v = none) :
    findSameIdx (lits ++ [v]) v = some lits.length := by
  induction lits with
  | nil => simp [findSameIdx, isValuesSame]
  | cons w ws ih =>
    by_cases hw : isValuesSame w v = true
    · simp [findSameIdx, hw] at h
    · rw [Bool.not_eq_true] at hw
      simp only [findSameIdx, hw, Bool.false_eq_true, if_false,
        Option.map_eq_none'] at h
      simp [findSameIdx, hw, ih h]

theorem addConstantCore_found (lits : List Var) (v : Var) (i : Nat)
    (h : findSameIdx lits v = some i) :
    compilerAddConstantCore lits v = ⟨lits, i, false⟩ := by
  simp [compilerAddConstantCore, h]

theorem addConstantCore_append (lits : List Var) (v : Var)
    (h : findSameIdx lits v = none) (hlen : lits.length < MAX_CONSTANTS) :
    compilerAddConstantCore lits v = ⟨lits ++ [v], lits.length, false⟩ := by
  simp [compilerAddConstantCore, h, hlen]

theorem addConstantCore_overflow (lits : List Var) (v : Var)
    (h : findSameIdx lits v = none) (hlen : ¬ lits.length < MAX_CONSTANTS) :
    compilerAddConstantCore lits v = ⟨lits, lits.length - 1, true⟩ := by
  simp [compilerAddConstantCore, h, hlen]

/-- The pool of MAX_CONSTANTS pairwise-distinct number literals. -/
def bigPool : List Var :=
  (List.range MAX_CONSTANTS).map (fun i => Var.num (decOf i))

theorem bigPool_not_same :
    ∀ w ∈ bigPool, isValuesSame w (Var.num (decOf MAX_CONSTANTS)) = false := by
  intro w hw
  simp only [bigPool, List.mem_map, List.mem_range] at hw
  obtain ⟨i, hi, rfl⟩ := hw
  simp only [isValuesSame, decOf, decide_eq_false_iff_not, Var.num.injEq,
    Dec.mk.injEq, not_and]
  intro he
  omega

theorem bigPool_length : bigPool.length = MAX_CONSTANTS := by
  simp [bigPool]

theorem bigPool_find_none :
    findSameIdx bigPool (Var.num (decOf MAX_CONSTANTS)) = none :=
  findSameIdx_eq_none_of_all _ _ bigPool_not_same

/-- Claim C6, counterexample: on a full pool (MAX_CONSTANTS distinct
literals) and a fresh value that no pooled literal is `same` as,
compilerAddConstant does NOT append and return the new index as the
claim states: it reports the overflow parse error, leaves the pool
unchanged and returns count-1. -/
theorem c6_full_pool_does_not_append :
    compilerAddConstantCore bigPool (Var.num (decOf MAX_CONSTANTS)) =
      ⟨bigPool, MAX_CONSTANTS - 1, true⟩ ∧
    bigPool.length = MAX_CONSTANTS ∧
    compilerAddConstantCore bigPool (Var.num (decOf MAX_CONSTANTS)) ≠
      ⟨bigPool ++ [Var.num (decOf MAX_CONSTANTS)], MAX_CONSTANTS, false⟩ := by
  have h1 : compilerAddConstantCore bigPool (Var.num (decOf MAX_CONSTANTS)) =
      ⟨bigPool, MAX_CONSTANTS - 1, true⟩ := by
    rw [addConstantCore_overflow bigPool _ bigPool_find_none
      (by rw [bigPool_length]; exact lt_irrefl _), bigPool_length]
  refine ⟨h1, bigPool_length, fun hc => ?_⟩
  have hov : (compilerAddConstantCore bigPool
      (Var.num (decOf MAX_CONSTANTS))).overflow = true := by rw [h1]
  rw [hc] at hov
  exact Bool.false_ne_true hov

/-- Claim C6, amended: compilerAddConstant returns the index of the
first pooled literal that is `same` as the value; otherwise, while the
pool holds fewer than MAX_CONSTANTS literals, it appends the value and
returns the new index, and on a full pool it reports a parse error and
returns MAX_CONSTANTS - 1 without appending.  Hence adding the same
literal n ≥ 1 times to a pool not containing it adds exactly one
entry, and the pool size never exceeds MAX_CONSTANTS. -/
theorem c6_addConstant_spec :
    (∀ (lits : List Var) (v : Var) (i : Nat), findSameIdx lits v = some i →
      compilerAddConstantCore lits v = ⟨lits, i, false⟩) ∧
    (∀ (lits : List Var) (v : Var), findSameIdx lits v = none →
      lits.length < MAX_CONSTANTS →
      compilerAddConstantCore lits v = ⟨lits ++ [v], lits.length, false⟩) ∧
    (∀ (lits : List Var) (v : Var), findSameIdx lits v = none →
      ¬ lits.length < MAX_CONSTANTS →
      compilerAddConstantCore lits v = ⟨lits, lits.length - 1, true⟩) ∧
    (∀ (lits : List Var) (v : Var), lits.length ≤ MAX_CONSTANTS →
      (compilerAddConstantCore lits v).literals.length ≤ MAX_CONSTANTS) ∧
    (∀ (lits : List Var) (v : Var) (n : Nat), findSameIdx lits v = none →
      lits.length < MAX_CONSTANTS →
      addNTimes lits v (n + 1) = lits ++ [v]) := by
  refine ⟨addConstantCore_found, addConstantCore_append,
    addConstantCore_overflow, ?_, ?_⟩
  · intro lits v hlen
    unfold compilerAddConstantCore
    cases hf : findSameIdx lits v with
    | some i => simpa using hlen
    | none =>
      by_cases hl : lits.length < MAX_CONSTANTS
      · simp [hl]
        omega
      · simpa [hl] using hlen
  · intro lits v n h hlen
    induction n with
    | zero => simp [addNTimes, compilerAddConstantCore, h, hlen]
    | succ m ih =>
      show (compilerAddConstantCore (addNTimes lits v (m + 1)) v).literals
        = lits ++ [v]
      rw [ih,
        addConstantCore_found _ _ _ (findSameIdx_append_self lits v h)]

/-- Witness for c6_addConstant_spec at concrete pools. -/
theorem c6_addConstant_spec_witness :
    compilerAddConstantCore [Var.num (decOf 1), Var.num (decOf 2)]
      (Var.num (decOf 2)) =
      ⟨[Var.num (decOf 1), Var.num (decOf 2)], 1, false⟩ ∧
    compilerAddConstantCore [Var.num (decOf 1)] (Var.num (decOf 2)) =
      ⟨[Var.num (decOf 1), Var.num (decOf 2)], 1, false⟩ ∧
    (compilerAddConstantCore [] (Var.num (decOf 3))).literals.length ≤
      MAX_CONSTANTS ∧
    addNTimes [] (Var.num (decOf 3)) 4 = [Var.num (decOf 3)] ∧
    compilerAddConstantCore bigPool (Var.num (decOf MAX_CONSTANTS)) =
      ⟨bigPool, bigPool.length - 1, true⟩ :=
  ⟨c6_addConstant_spec.1 _ _ 1 (by decide),
   c6_addConstant_spec.2.1 _ _ (by decide) (by decide),
   c6_addConstant_spec.2.2.2.1 _ _ (by decide),
   c6_addConstant_spec.2.2.2.2 _ _ 3 (by decide) (by decide),
   c6_addConstant_spec.2.2.1 _ _ bigPool_find_none
     (by simp [bigPool_length])⟩

/-! ## Claim C7 -/

/-- Claim C7: string lexing maps the five escapes to their characters —
a literal containing all five escapes lexes to the bytes 0x22, 0x5C,
0x0A, 0x0D, 0x09, and the literal source `"a\n"` lexes to a STRING
token whose String object holds the two bytes 'a', 0x0A with no error;
end of input inside a string sets has_errors and reports
"Non terminated string."; and every other escape character is a lex
error. -/
theorem c7_string_lexing :
    ((lexToken (parserInit allEscSrc)).next.type = Tk.TK_STRING ∧
     (lexToken (parserInit allEscSrc)).heap =
       [Obj.str (fnv1a [34, 92, 10, 13, 9]) [34, 92, 10, 13, 9]] ∧
     (lexToken (parserInit allEscSrc)).has_errors = false) ∧
    ((lexToken (parserInit ("\"a\\n\"".toList))).next.type = Tk.TK_STRING ∧
     (lexToken (parserInit ("\"a\\n\"".toList))).next.value = Var.obj 0 ∧
     (lexToken (parserInit ("\"a\\n\"".toList))).heap =
       [Obj.str (fnv1a [Char.toNat 'a', 0x0A]) [Char.toNat 'a', 0x0A]] ∧
     (lexToken (parserInit ("\"a\\n\"".toList))).has_errors = false) ∧
    ((lexToken (parserInit ("\"abc".toList))).has_errors = true ∧
     (lexToken (parserInit ("\"abc".toList))).errors =
       ["Non terminated string."]) ∧
    (∀ ch : Char, ch ≠ '"' → ch ≠ '\\' → ch ≠ 'n' → ch ≠ 'r' → ch ≠ 't' →
      ch ≠ nulChar →
      (lexToken (parserInit ['"', '\\', ch, '"'])).errors =
        ["Error: invalid escape character"] ∧
      (lexToken (parserInit ['"', '\\', ch, '"'])).has_errors = true) := by
  refine ⟨by decide, by decide, by decide, ?_⟩
  intro ch h1 h2 h3 h4 h5 h6
  simp [lexToken, parserInit, lexLoop, peekChar, nulChar, eatChar,
    eatString, eatStringLoop, lexErrorP, newStringP, setNextValueToken,
    setNextToken, h1, h2, h3, h4, h5, h6]

/-- Witness for c7_string_lexing's universally quantified conjunct at
the concrete escape character 'x'. -/
theorem c7_string_lexing_witness :
    (lexToken (parserInit ['"', '\\', 'x', '"'])).errors =
      ["Error: invalid escape character"] ∧
    (lexToken (parserInit ['"', '\\', 'x', '"'])).has_errors = true :=
  c7_string_lexing.2.2.2 'x' (by decide) (by decide) (by decide)
    (by decide) (by decide) (by decide)

/-! ## Claim C9 -/

/-- The two object kinds isValuesEqual deep-compares. -/
def isDeepKind : Obj → Bool
  | .range _ _ => true
  | .str _ _ => true
  | _ => false

/-- Claim C9: same is reflexive; same implies equal; and equal
deep-compares Range objects field-wise and String objects by hash,
length and bytes, while every other object kind compares by identity
(i.e. equal coincides with same on them). -/
theorem c9_same_equal :
    (∀ v : Var, isValuesSame v v = true) ∧
    (∀ (heap : Heap) (a b : Var),
      isValuesSame a b = true → isValuesEqual heap a b = true) ∧
    (∀ (heap : Heap) (a1 a2 : Nat) (f1 t1 f2 t2 : Dec), a1 ≠ a2 →
      heap a1 = .range f1 t1 → heap a2 = .range f2 t2 →
      (isValuesEqual heap (.obj a1) (.obj a2) = true ↔
        f1 = f2 ∧ t1 = t2)) ∧
    (∀ (heap : Heap) (a1 a2 h1 h2 : Nat) (d1 d2 : List Nat), a1 ≠ a2 →
      heap a1 = .str h1 d1 → heap a2 = .str h2 d2 →
      (isValuesEqual heap (.obj a1) (.obj a2) = true ↔
        h1 = h2 ∧ d1 = d2)) ∧
    (∀ (heap : Heap) (a1 a2 : Nat),
      isDeepKind (heap a1) = false → isDeepKind (heap a2) = false →
      isValuesEqual heap (.obj a1) (.obj a2) =
        isValuesSame (.obj a1) (.obj a2)) := by
  refine ⟨?_, ?_, ?_, ?_, ?_⟩
  · intro v
    simp [isValuesSame]
  · intro heap a b h
    simp [isValuesEqual, h]
  · intro heap a1 a2 f1 t1 f2 t2 hne hh1 hh2
    have hs : isValuesSame (.obj a1) (.obj a2) = false := by
      simp [isValuesSame, hne]
    simp [isValuesEqual, hs, hh1, hh2, Obj.typeTag]
  · intro heap a1 a2 h1 h2 d1 d2 hne hh1 hh2
    have hs : isValuesSame (.obj a1) (.obj a2) = false := by
      simp [isValuesSame, hne]
    simp [isValuesEqual, hs, hh1, hh2, Obj.typeTag]
    rintro rfl _
    rfl
  · intro heap a1 a2 k1 k2
    by_cases he : a1 = a2
    · subst he
      have : isValuesSame (Var.obj a1) (Var.obj a1) = true := by
        simp [isValuesSame]
      simp [isValuesEqual, this]
    · have hs : isValuesSame (.obj a1) (.obj a2) = false := by
        simp [isValuesSame, he]
      cases hh1 : heap a1 <;> cases hh2 : heap a2 <;>
        simp_all [isValuesEqual, isDeepKind, Obj.typeTag]

/-- A concrete heap for the c9 witness: two equal ranges at 0 and 1,
two equal strings at 2 and 3, plain objects beyond. -/
def heapW : Heap := fun a =>
  if a = 0 then Obj.range (decOf 1) (decOf 2)
  else if a = 1 then Obj.range (decOf 1) (decOf 2)
  else if a = 2 then Obj.str 7 [65]
  else if a = 3 then Obj.str 7 [65]
  else Obj.user

/-- Witness for c9_same_equal at concrete values and a concrete heap. -/
theorem c9_same_equal_witness :
    isValuesSame (Var.num (decOf 3)) (Var.num (decOf 3)) = true ∧
    isValuesEqual heapW Var.null Var.null = true ∧
    (isValuesEqual heapW (.obj 0) (.obj 1) = true ↔
      decOf 1 = decOf 1 ∧ decOf 2 = decOf 2) ∧
    (isValuesEqual heapW (.obj 2) (.obj 3) = true ↔
      (7 : Nat) = 7 ∧ [65] = ([65] : List Nat)) ∧
    isValuesEqual heapW (.obj 4) (.obj 5) =
      isValuesSame (Var.obj 4) (Var.obj 5) :=
  ⟨c9_same_equal.1 _,
   c9_same_equal.2.1 heapW _ _ (by decide),
   c9_same_equal.2.2.1 heapW 0 1 _ _ _ _ (by decide) rfl rfl,
   c9_same_equal.2.2.2.1 heapW 2 3 7 7 [65] [65] (by decide) rfl rfl,
   c9_same_equal.2.2.2.2 heapW 4 5 rfl rfl⟩

end MiniScript
